import Mathlib

/-!
Shallow embedding of `src/bart_evaluator.py` (BART text-correction model
evaluator) and proofs about the claims of its specification.

The script is a linear batch pipeline:
  1. load a CSV, drop rows with a missing required field (`pd.read_csv`,
     `dropna(subset=[...])`, `reset_index(drop=True)`);
  2. discover model directories (`os.listdir` filtered by `startswith`);
  3. per model: parse `max_length` from the directory name
     (`get_max_length_from_dir`), generate, score, and write three CSVs;
  4. `count_outliers` counts per-metric and total interval violations.

Machine floats are modelled by `PyFloat` (a rational value or NaN); IEEE
comparisons against NaN are always false, which `pyBetween` reflects.
The model-inference and third-party metric computations themselves are
opaque to the claims below: records carry their already-computed values.
-/

namespace BartEval

/-! ## Dataset Loader

Embeds lines 86-90 of `bart_evaluator.py`:
  data = pd.read_csv(file_path)
  data = data.dropna(subset=['True Transcription', 'Predicted Transcription']).reset_index(drop=True)
A row is modelled by its two required cells; `none` models a NaN/missing
cell as produced by `pd.read_csv` for an absent value. -/

/-- One CSV row. `trueTrans` is the "True Transcription" cell and
`predTrans` the "Predicted Transcription" cell; `none` is a missing cell. -/
structure Row where
  trueTrans : Option String
  predTrans : Option String
deriving DecidableEq

/-- `dropna(subset=['True Transcription', 'Predicted Transcription'])` keeps
a row iff no cell of the subset is missing (pandas default `how='any'`). -/
def keepRow (r : Row) : Bool :=
  r.trueTrans.isSome && r.predTrans.isSome

/-- `pd.read_csv`: the frame is the row list paired with its integer index. -/
def readFrame (rows : List Row) : List (Nat × Row) :=
  rows.enum

/-- `dropna(subset=[...])`: filter the indexed frame, indices untouched. -/
def dropnaSubset (df : List (Nat × Row)) : List (Nat × Row) :=
  df.filter (fun p => keepRow p.2)

/-- `reset_index(drop=True)`: renumber the remaining rows contiguously. -/
def resetIndexDrop (df : List (Nat × Row)) : List (Nat × Row) :=
  (df.map Prod.snd).enum

/-- The loader of line 86-87: read, drop incomplete rows, reindex. -/
def loadData (rows : List Row) : List (Nat × Row) :=
  resetIndexDrop (dropnaSubset (readFrame rows))

/-! ## Python string helpers used by `get_max_length_from_dir` -/

/-- `charsStartWith needle l` is true iff `needle` is an initial segment of
`l` (character-wise). -/
def charsStartWith : List Char → List Char → Bool
  | [], _ => true
  | _ :: _, [] => false
  | c :: cs, d :: ds => c == d && charsStartWith cs ds

/-- `charsContain needle hay`: Python `needle in hay` on character lists
(substring containment). -/
def charsContain (needle : List Char) : List Char → Bool
  | [] => charsStartWith needle []
  | c :: cs => charsStartWith needle (c :: cs) || charsContain needle cs

/-- Python `needle in hay` for strings. -/
def pyIn (needle hay : String) : Bool :=
  charsContain needle.toList hay.toList

/-- Python `str.split(sep)` on character lists, fuelled by the input length
(each step consumes at least one character when `sep` is non-empty, so the
fuel is never exhausted on the call below). Leftmost, non-overlapping. -/
def pySplitAux (sep : List Char) : Nat → List Char → List (List Char)
  | 0, s => [s]
  | _ + 1, [] => [[]]
  | fuel + 1, c :: cs =>
    if charsStartWith sep (c :: cs) then
      [] :: pySplitAux sep fuel ((c :: cs).drop sep.length)
    else
      match pySplitAux sep fuel cs with
      | [] => [[]]
      | h :: t => (c :: h) :: t

/-- Python `s.split(sep)` for a non-empty separator (the script only splits
on the literal `'_ml'`; Python raises on an empty separator, never hit). -/
def pySplit (s sep : String) : List String :=
  if sep.isEmpty then [s]
  else (pySplitAux sep.toList (s.toList.length + 1) s.toList).map
    (fun cs => String.mk cs)

/-- Digit value of an ASCII digit character. -/
def digitVal (c : Char) : Nat :=
  c.toNat - '0'.toNat

/-- Continuation of Python `int(str)` digit parsing: after an initial digit,
further digits follow, with a single underscore allowed only between two
digits (Python 3 numeric-literal underscores). -/
def pyDigitsCore (acc : Nat) : List Char → Option Nat
  | [] => some acc
  | '_' :: rest =>
    match rest with
    | [] => none
    | c :: cs => if c.isDigit then pyDigitsCore (10 * acc + digitVal c) cs else none
  | c :: cs => if c.isDigit then pyDigitsCore (10 * acc + digitVal c) cs else none

/-- Digit-run part of Python `int(str)`: at least one digit, no leading or
trailing underscore, no doubled underscore. -/
def pyDigits : List Char → Option Nat
  | [] => none
  | c :: cs => if c.isDigit then pyDigitsCore (digitVal c) cs else none

/-- Python `int(str)`: strip surrounding whitespace, optional sign, decimal
digit run. Returns `none` where Python raises `ValueError`. (Non-ASCII
decimal digits, accepted by CPython, are outside this model.) -/
def pyIntParse (s : String) : Option Int :=
  let l := ((s.toList.dropWhile Char.isWhitespace).reverse.dropWhile
    Char.isWhitespace).reverse
  match l with
  | '+' :: rest => (pyDigits rest).map Int.ofNat
  | '-' :: rest => (pyDigits rest).map (fun n => -(Int.ofNat n))
  | rest => (pyDigits rest).map Int.ofNat

/-! ## `get_max_length_from_dir` (lines 70-77)

  def get_max_length_from_dir(dir_name, default=64):
      if '_ml' in dir_name:
          try:
              max_length_str = dir_name.split('_ml')[-1]
              return int(max_length_str)
          except ValueError:
              return default
      return default

The Python default parameter is 64; the single call site (line 121) passes
`default=128`, so the default is always explicit here. -/

/-- The Python-side default parameter value of `get_max_length_from_dir`
(unused at the only call site, which passes 128). -/
def get_max_length_default : Int := 64

/-- Embedding of `get_max_length_from_dir`: `dir_name.split('_ml')[-1]` is
the last element of the split; a failed `int(...)` is the `none` branch
(caught `ValueError`). -/
def get_max_length_from_dir (dir_name : String) (default : Int) : Int :=
  if pyIn "_ml" dir_name then
    match pyIntParse ((pySplit dir_name "_ml").getLast!) with
    | some n => n
    | none => default
  else default

/-- Exception-aware embedding of `get_max_length_from_dir`: the `try` body
raises `ValueError` (as `Except.error`) when `int(...)` fails; the
`except ValueError` handler converts exactly that exception into the
default. An uncaught exception would surface as `Except.error`. -/
def get_max_length_from_dir_exc (dir_name : String) (default : Int) :
    Except String Int :=
  if pyIn "_ml" dir_name then
    match
      (match pyIntParse ((pySplit dir_name "_ml").getLast!) with
       | some n => Except.ok n
       | none => Except.error "ValueError") with
    | Except.ok n => Except.ok n
    | Except.error e =>
      if e = "ValueError" then Except.ok default else Except.error e
  else Except.ok default

/-! ## Metric records and `count_outliers` (lines 46-62)

A metric cell is a Python float: either an actual (finite) value, modelled
as a rational, or NaN. `Series.between(lo, hi)` is `lo <= x <= hi` with
IEEE comparison semantics, so it is false whenever `x` is NaN. -/

/-- A Python float as far as the outlier logic observes it: a finite value
(rational) or NaN. Every comparison against NaN is false. -/
inductive PyFloat where
  | nan : PyFloat
  | val (q : ℚ) : PyFloat
deriving DecidableEq

/-- `Series.between(lo, hi)` pointwise: inclusive on both ends, false on
NaN. -/
def pyBetween (x : PyFloat) (lo hi : ℚ) : Bool :=
  match x with
  | .nan => false
  | .val q => decide (lo ≤ q) && decide (q ≤ hi)

/-- One row of the detailed results frame, as `count_outliers` sees it:
the four metric columns "WER", "CER", "BLEU", "Cosine Similarity". -/
structure MetricRecord where
  wer : PyFloat
  cer : PyFloat
  bleu : PyFloat
  cosineSim : PyFloat
deriving DecidableEq

/-- `~df["BLEU"].between(0, 100)` pointwise. -/
def bleuOutlier (r : MetricRecord) : Bool := ! pyBetween r.bleu 0 100

/-- `~df["WER"].between(0, 1)` pointwise. -/
def werOutlier (r : MetricRecord) : Bool := ! pyBetween r.wer 0 1

/-- `~df["CER"].between(0, 1)` pointwise. -/
def cerOutlier (r : MetricRecord) : Bool := ! pyBetween r.cer 0 1

/-- `~df["Cosine Similarity"].between(0, 1)` pointwise. -/
def cosineSimOutlier (r : MetricRecord) : Bool := ! pyBetween r.cosineSim 0 1

/-- `np.logical_or.reduce` over the four conditions, in the dict order
BLEU, WER, CER, Cosine Similarity. -/
def anyOutlier (r : MetricRecord) : Bool :=
  bleuOutlier r || werOutlier r || cerOutlier r || cosineSimOutlier r

/-- The dictionary returned by `count_outliers`, field per key. -/
structure OutlierCounts where
  bleu : Nat
  wer : Nat
  cer : Nat
  cosineSim : Nat
  total : Nat
deriving DecidableEq

/-- Embedding of `count_outliers`: `cond.sum()` counts the true entries of
each boolean condition; "Total Outliers" counts rows where the reduced OR
holds. -/
def count_outliers (rs : List MetricRecord) : OutlierCounts :=
  { bleu := rs.countP bleuOutlier
    wer := rs.countP werOutlier
    cer := rs.countP cerOutlier
    cosineSim := rs.countP cosineSimOutlier
    total := rs.countP anyOutlier }

/-! ## Report Writer (lines 163-206)

`results_per_sample` records (line 163-172), the detailed frame and its
CSV (175-180), the summary frame (182-195) and the outlier-count frame
(197-206). -/

/-- The per-sample data available when a record is appended: the reference
text, the original (baseline) prediction, the BART-corrected text, and the
four computed metric values. -/
structure ScoredSample where
  ref : String
  origPred : String
  bartPred : String
  wer : PyFloat
  cer : PyFloat
  bleu : PyFloat
  cosineSim : PyFloat
deriving DecidableEq

/-- A cell of the detailed results frame. -/
inductive Cell where
  | str (s : String) : Cell
  | num (x : PyFloat) : Cell
deriving DecidableEq

/-- The dict appended to `results_per_sample` for one sample (lines
163-172), keys in Python insertion order. -/
def resultRecord (model_dir : String) (s : ScoredSample) :
    List (String × Cell) :=
  [("Model", .str model_dir),
   ("True Transcription", .str s.ref),
   ("Original Prediction", .str s.origPred),
   ("BART Corrected", .str s.bartPred),
   ("WER", .num s.wer),
   ("CER", .num s.cer),
   ("BLEU", .num s.bleu),
   ("Cosine Similarity", .num s.cosineSim)]

/-- `pd.DataFrame(results_per_sample)` (line 175): one frame row per
record, in order. -/
def detailed_results (model_dir : String) (samples : List ScoredSample) :
    List (List (String × Cell)) :=
  samples.map (resultRecord model_dir)

/-- Columns of a frame built from a list of uniform-key dicts: the keys of
the first record, in insertion order (pandas takes the union of keys in
encounter order; all records here share the same keys). -/
def dataFrameColumns (records : List (List (String × Cell))) : List String :=
  (records.headD []).map Prod.fst

/-- Header line written by `to_csv(index=False)` for the detailed frame. -/
def detailedCSVHeader (records : List (List (String × Cell))) : String :=
  String.intercalate "," (dataFrameColumns records)

/-- The metric cell of a record under its column name, for the summary
aggregation over `metrics = ["WER", "CER", "BLEU", "Cosine Similarity"]`. -/
def metricCell (name : String) (r : MetricRecord) : PyFloat :=
  if name = "WER" then r.wer
  else if name = "CER" then r.cer
  else if name = "BLEU" then r.bleu
  else r.cosineSim

/-- The finite (non-NaN) values of a metric column, in row order; pandas
`mean`/`median` skip NaN by default. -/
def colVals (rs : List MetricRecord) (name : String) : List ℚ :=
  rs.filterMap (fun r =>
    match metricCell name r with
    | .val q => some q
    | .nan => none)

/-- `Series.mean()`: arithmetic mean of the non-NaN values, NaN when there
are none. -/
def pdMean (rs : List MetricRecord) (name : String) : PyFloat :=
  let vs := colVals rs name
  if vs.length = 0 then .nan else .val (vs.sum / (vs.length : ℚ))

/-- `Series.median()`: middle of the sorted non-NaN values, average of the
two middles for an even count, NaN when there are none. -/
def pdMedian (rs : List MetricRecord) (name : String) : PyFloat :=
  let vs := List.insertionSort (· ≤ ·) (colVals rs name)
  let n := vs.length
  if n = 0 then .nan
  else if n % 2 = 1 then .val (vs.getD (n / 2) 0)
  else .val ((vs.getD (n / 2 - 1) 0 + vs.getD (n / 2) 0) / 2)

/-- The metric column names of lines 183, in order. -/
def metricNames : List String := ["WER", "CER", "BLEU", "Cosine Similarity"]

/-- The summary frame of lines 187-191: one row per metric with its mean
and median over all rows (outliers included, NaN skipped by pandas). -/
def summary_rows (rs : List MetricRecord) :
    List (String × PyFloat × PyFloat) :=
  metricNames.map (fun name => (name, pdMean rs name, pdMedian rs name))

/-- Deterministic rendering of a metric value for CSV output. The script
delegates float formatting to pandas; here a value is rendered by a fixed
function of the rational (NaN renders as pandas' empty cell). -/
def renderFloat (x : PyFloat) : String :=
  match x with
  | .nan => ""
  | .val q => toString q

/-- `summary_df.to_csv(index=False)` (line 195): header plus one line per
metric row. -/
def summaryCSV (rs : List MetricRecord) : String :=
  String.intercalate "\n"
    ("Metric,Mean (All Data),Median (All Data)" ::
      (summary_rows rs).map (fun row =>
        row.1 ++ "," ++ renderFloat row.2.1 ++ "," ++ renderFloat row.2.2))

/-- `list(outlier_counts.items())` (lines 199-202): dict insertion order is
BLEU, WER, CER, Cosine Similarity, then the appended Total Outliers. -/
def outlier_items (rs : List MetricRecord) : List (String × Nat) :=
  let c := count_outliers rs
  [("BLEU", c.bleu), ("WER", c.wer), ("CER", c.cer),
   ("Cosine Similarity", c.cosineSim), ("Total Outliers", c.total)]

/-- `outlier_counts_df.to_csv(index=False)` (line 206). -/
def outlierCountsCSV (rs : List MetricRecord) : String :=
  String.intercalate "\n"
    ("Metric,Outlier Count" ::
      (outlier_items rs).map (fun row => row.1 ++ "," ++ toString row.2))

/-! ## Model Discovery and top-level dispatch (lines 99-105)

  model_dirs = [d for d in os.listdir('.') if os.path.isdir(d) and d.startswith('bart_minimal')]
  if not model_dirs:
      print(...); exit()

`os.listdir` is modelled as an explicit entry list; `exit()` raises
`SystemExit(None)`, which terminates the interpreter with status 0. -/

/-- One entry of the working directory as `os.listdir` + `os.path.isdir`
observe it. -/
structure DirEntry where
  name : String
  isDir : Bool
deriving DecidableEq

/-- Python `s.startswith(pre)`. -/
def pyStartsWith (s pre : String) : Bool :=
  charsStartWith pre.toList s.toList

/-- Lines 99-102: directory entries whose name starts with
`'bart_minimal'`, in listing order. -/
def discoverModelDirs (entries : List DirEntry) : List String :=
  (entries.filter (fun e => e.isDir && pyStartsWith e.name "bart_minimal")).map
    (fun e => e.name)

/-- What the run does after discovery: exit early with the informational
message, or evaluate the discovered directories. -/
inductive RunOutcome where
  | earlyExit (message : String) : RunOutcome
  | evaluated (dirs : List String) : RunOutcome
deriving DecidableEq

/-- Lines 103-105 and the loop of line 108: empty discovery prints the
message and exits; otherwise every discovered directory is evaluated. -/
def mainDispatch (entries : List DirEntry) : RunOutcome :=
  let dirs := discoverModelDirs entries
  if dirs.isEmpty then
    .earlyExit "No BART model directories found matching 'bart_minimal*'. Exiting."
  else .evaluated dirs

/-- Output files written on each path: none before the per-model loop; per
evaluated model the three CSVs of lines 178, 193 and 204. -/
def outputFilesOf : RunOutcome → List String
  | .earlyExit _ => []
  | .evaluated dirs => dirs.flatMap (fun d =>
      [d ++ "_detailed_evaluation.csv",
       d ++ "_summary_evaluation.csv",
       d ++ "_outlier_counts.csv"])

/-- Process exit status: `exit()` with no argument raises
`SystemExit(None)`, exit status 0; a run to completion also exits 0. -/
def exitStatusOf : RunOutcome → Nat
  | .earlyExit _ => 0
  | .evaluated _ => 0

/-! ## Theorems -/

/-- Dropping incomplete rows commutes with forgetting the index column. -/
lemma dropna_enum_map_snd (rows : List Row) :
    (dropnaSubset (readFrame rows)).map Prod.snd = rows.filter keepRow := by
  unfold dropnaSubset readFrame
  rw [show (fun p : Nat × Row => keepRow p.2) = (keepRow ∘ Prod.snd) from rfl]
  rw [← List.filter_map, List.enum_map_snd]

/-- The values the loader returns are the rows passing `keepRow`, in their
original order. -/
lemma loadData_map_snd (rows : List Row) :
    (loadData rows).map Prod.snd = rows.filter keepRow := by
  unfold loadData resetIndexDrop
  rw [List.enum_map_snd, dropna_enum_map_snd]

/-- The index column after `reset_index(drop=True)` is contiguous from 0. -/
lemma loadData_map_fst (rows : List Row) :
    (loadData rows).map Prod.fst = List.range (rows.filter keepRow).length := by
  unfold loadData resetIndexDrop
  rw [List.enum_map_fst, dropna_enum_map_snd]

/-- C1: the Dataset Loader drops exactly the rows with at least one of the
two required fields absent (`keepRow` is true iff both cells are present),
keeps the others in their original relative order with contiguous
reindexing from 0, and an input of 3 valid rows plus 1 row missing only the
baseline-prediction field yields exactly 3 samples. -/
theorem C1_loader_drops_missing_rows :
    ∀ rows : List Row,
      ((loadData rows).map Prod.snd = rows.filter keepRow ∧
       (loadData rows).map Prod.fst =
         List.range (rows.filter keepRow).length) ∧
      (loadData [⟨some "r1", some "p1"⟩, ⟨some "r2", some "p2"⟩,
                 ⟨some "r3", some "p3"⟩, ⟨some "r4", none⟩]).length = 3 := by
  intro rows
  exact ⟨⟨loadData_map_snd rows, loadData_map_fst rows⟩, rfl⟩

/-- C2 counterexample: the claim "every dropped row had BOTH required
fields missing" is false. A row whose ground-truth field is present but
whose baseline-prediction field is missing is dropped by
`dropna(subset=[...])` (pandas `how='any'`), refuting the claim at the
one-row input below. -/
theorem C2_counterexample :
    ¬ (∀ rows : List Row, ∀ r ∈ rows,
        r ∉ (loadData rows).map Prod.snd →
        r.trueTrans = none ∧ r.predTrans = none) := by
  intro h
  have h2 := h [⟨some "hello", none⟩] ⟨some "hello", none⟩ (by simp)
    (by decide)
  exact absurd h2.1 (by decide)

/-- C2 amended: every row dropped by the loader had AT LEAST ONE required
field missing, and no row with both fields present is ever dropped. -/
theorem C2_dropped_rows_have_a_missing_field (rows : List Row) :
    (∀ r ∈ rows, r ∉ (loadData rows).map Prod.snd →
      r.trueTrans = none ∨ r.predTrans = none) ∧
    (∀ r ∈ rows, r.trueTrans.isSome → r.predTrans.isSome →
      r ∈ (loadData rows).map Prod.snd) := by
  rw [loadData_map_snd]
  constructor
  · intro r hr hdrop
    by_contra hboth
    push_neg at hboth
    apply hdrop
    refine List.mem_filter.mpr ⟨hr, ?_⟩
    have h1 : r.trueTrans.isSome := Option.ne_none_iff_isSome.mp hboth.1
    have h2 : r.predTrans.isSome := Option.ne_none_iff_isSome.mp hboth.2
    simp [keepRow, h1, h2]
  · intro r hr h1 h2
    exact List.mem_filter.mpr ⟨hr, by simp [keepRow, h1, h2]⟩

/-- Witness for the amended C2 at a concrete one-row table. -/
theorem C2_amended_witness :
    (⟨some "a", some "b"⟩ : Row) ∈
      (loadData [(⟨some "a", some "b"⟩ : Row)]).map Prod.snd :=
  (C2_dropped_rows_have_a_missing_field [⟨some "a", some "b"⟩]).2
    ⟨some "a", some "b"⟩ (by simp) (by decide) (by decide)

/-- C3: with default 128, max-generation-length extraction returns the
integer parsed from the token after the length marker when the marker is
present and that token is a valid Python integer, and returns 128 when the
marker is absent or the token does not parse; in particular
`bart_minimal_ml32` yields 32, `bart_minimal_variant` yields 128, and
`bart_minimal_mlxyz` yields 128. -/
theorem C3_max_length_extraction :
    (∀ (dir_name : String) (n : Int),
      pyIn "_ml" dir_name = true →
      pyIntParse ((pySplit dir_name "_ml").getLast!) = some n →
      get_max_length_from_dir dir_name 128 = n) ∧
    (∀ dir_name : String,
      pyIn "_ml" dir_name = false →
      get_max_length_from_dir dir_name 128 = 128) ∧
    (∀ dir_name : String,
      pyIntParse ((pySplit dir_name "_ml").getLast!) = none →
      get_max_length_from_dir dir_name 128 = 128) ∧
    get_max_length_from_dir "bart_minimal_ml32" 128 = 32 ∧
    get_max_length_from_dir "bart_minimal_variant" 128 = 128 ∧
    get_max_length_from_dir "bart_minimal_mlxyz" 128 = 128 := by
  refine ⟨?_, ?_, ?_, rfl, rfl, rfl⟩
  · intro d n h1 h2
    simp [get_max_length_from_dir, h1, h2]
  · intro d h
    simp [get_max_length_from_dir, h]
  · intro d h
    cases hin : pyIn "_ml" d <;> simp [get_max_length_from_dir, hin, h]

/-- Witness for C3 at the marker-present scenario directory name. -/
theorem C3_witness :
    get_max_length_from_dir "bart_minimal_ml32" 128 = 32 :=
  C3_max_length_extraction.1 "bart_minimal_ml32" 32 rfl rfl

/-- C4: the extraction is total and never lets an exception escape: the
exception-aware embedding always returns `Except.ok`, and its value is the
one the total function returns (the `ValueError` of an invalid numeric
token is caught and becomes the default). -/
theorem C4_max_length_never_raises :
    ∀ (dir_name : String) (default : Int),
      get_max_length_from_dir_exc dir_name default =
        Except.ok (get_max_length_from_dir dir_name default) := by
  intro d default
  unfold get_max_length_from_dir_exc get_max_length_from_dir
  cases hin : pyIn "_ml" d
  · simp
  · cases hp : pyIntParse ((pySplit d "_ml").getLast!) <;> simp

/-- C9: the extraction parses the token after the LAST occurrence of the
marker (`bart_minimal_ml32_ml64` yields 64, from `split('_ml')[-1]`), and
Python `int` accepts signed tokens, so the result can be negative
(`bart_minimal_ml-5` yields -5) or zero (`bart_minimal_ml0` yields 0) —
there is no positivity check. -/
theorem C9_last_marker_and_signed_tokens :
    get_max_length_from_dir "bart_minimal_ml32_ml64" 128 = 64 ∧
    get_max_length_from_dir "bart_minimal_ml-5" 128 = -5 ∧
    get_max_length_from_dir "bart_minimal_ml-5" 128 < 0 ∧
    get_max_length_from_dir "bart_minimal_ml0" 128 = 0 := by
  exact ⟨rfl, rfl, by decide, rfl⟩

/-- A count of rows satisfying a disjunction is at most the sum of the
counts of the disjuncts. -/
lemma countP_or_le_add {α : Type} (p q : α → Bool) (l : List α) :
    l.countP (fun a => p a || q a) ≤ l.countP p + l.countP q := by
  induction l with
  | nil => simp
  | cons a t ih =>
    simp only [List.countP_cons]
    cases hp : p a <;> cases hq : q a <;> simp [hp, hq] <;> omega

/-- The total-outlier count is at most the sum of the four per-metric
counts. -/
lemma countP_anyOutlier_le_sum (rs : List MetricRecord) :
    rs.countP anyOutlier ≤
      rs.countP bleuOutlier + rs.countP werOutlier +
      rs.countP cerOutlier + rs.countP cosineSimOutlier := by
  have h1 : rs.countP anyOutlier ≤
      rs.countP (fun r => bleuOutlier r || werOutlier r || cerOutlier r) +
      rs.countP cosineSimOutlier :=
    countP_or_le_add (fun r => bleuOutlier r || werOutlier r || cerOutlier r)
      cosineSimOutlier rs
  have h2 : rs.countP (fun r => bleuOutlier r || werOutlier r || cerOutlier r) ≤
      rs.countP (fun r => bleuOutlier r || werOutlier r) + rs.countP cerOutlier :=
    countP_or_le_add (fun r => bleuOutlier r || werOutlier r) cerOutlier rs
  have h3 : rs.countP (fun r => bleuOutlier r || werOutlier r) ≤
      rs.countP bleuOutlier + rs.countP werOutlier :=
    countP_or_le_add bleuOutlier werOutlier rs
  omega

/-- C5: for every record set, `Total Outliers` is at least each per-metric
outlier count (hence at least their maximum) and at most their sum: a row
violating several metric intervals still contributes exactly one to the
total, through the OR across the per-metric violation flags. -/
theorem C5_total_outliers_bounds :
    ∀ rs : List MetricRecord,
      (count_outliers rs).bleu ≤ (count_outliers rs).total ∧
      (count_outliers rs).wer ≤ (count_outliers rs).total ∧
      (count_outliers rs).cer ≤ (count_outliers rs).total ∧
      (count_outliers rs).cosineSim ≤ (count_outliers rs).total ∧
      (count_outliers rs).total ≤
        (count_outliers rs).bleu + (count_outliers rs).wer +
        (count_outliers rs).cer + (count_outliers rs).cosineSim := by
  intro rs
  refine ⟨?_, ?_, ?_, ?_, countP_anyOutlier_le_sum rs⟩
  · exact List.countP_mono_left (fun r _ h => by simp [anyOutlier, h])
  · exact List.countP_mono_left (fun r _ h => by simp [anyOutlier, h])
  · exact List.countP_mono_left (fun r _ h => by simp [anyOutlier, h])
  · exact List.countP_mono_left (fun r _ h => by simp [anyOutlier, h])

/-- C10: a record whose metric value is NaN is counted as an outlier for
that metric and toward `Total Outliers` (the `between` test is false on
NaN and then negated), and all five counts are at most the number of
records (they are naturals, so at least 0). -/
theorem C10_nan_is_outlier_and_counts_bounded :
    ∀ (r : MetricRecord) (rs : List MetricRecord),
      (r.bleu = PyFloat.nan →
        (count_outliers (r :: rs)).bleu = (count_outliers rs).bleu + 1 ∧
        (count_outliers (r :: rs)).total = (count_outliers rs).total + 1) ∧
      (r.wer = PyFloat.nan →
        (count_outliers (r :: rs)).wer = (count_outliers rs).wer + 1 ∧
        (count_outliers (r :: rs)).total = (count_outliers rs).total + 1) ∧
      (r.cer = PyFloat.nan →
        (count_outliers (r :: rs)).cer = (count_outliers rs).cer + 1 ∧
        (count_outliers (r :: rs)).total = (count_outliers rs).total + 1) ∧
      (r.cosineSim = PyFloat.nan →
        (count_outliers (r :: rs)).cosineSim = (count_outliers rs).cosineSim + 1 ∧
        (count_outliers (r :: rs)).total = (count_outliers rs).total + 1) ∧
      ((count_outliers rs).bleu ≤ rs.length ∧
       (count_outliers rs).wer ≤ rs.length ∧
       (count_outliers rs).cer ≤ rs.length ∧
       (count_outliers rs).cosineSim ≤ rs.length ∧
       (count_outliers rs).total ≤ rs.length) := by
  intro r rs
  refine ⟨fun h => ?_, fun h => ?_, fun h => ?_, fun h => ?_,
    List.countP_le_length _, List.countP_le_length _, List.countP_le_length _,
    List.countP_le_length _, List.countP_le_length _⟩ <;>
    constructor <;>
    simp [count_outliers, List.countP_cons, anyOutlier, bleuOutlier,
      werOutlier, cerOutlier, cosineSimOutlier, pyBetween, h]

/-- Witness for C10: one record with a NaN BLEU cell raises the BLEU count
and the total by one. -/
theorem C10_witness :
    (count_outliers [⟨.val 0, .val 0, .nan, .val 1⟩]).bleu =
      (count_outliers []).bleu + 1 ∧
    (count_outliers [⟨.val 0, .val 0, .nan, .val 1⟩]).total =
      (count_outliers []).total + 1 :=
  (C10_nan_is_outlier_and_counts_bounded ⟨.val 0, .val 0, .nan, .val 1⟩ []).1 rfl

/-- A concrete scored sample used to instantiate report-writer claims. -/
def sampleA : ScoredSample :=
  ⟨"ref text", "orig text", "corrected text", .val 0, .val 0, .val 100, .val 1⟩

/-- C6 counterexample: the detailed frame's fourth column is named
"BART Corrected" (the dict key at line 167), not "Corrected Output" as the
claim states, so on the concrete one-sample table the header list the
Report Writer produces differs from the claimed one. -/
theorem C6_counterexample :
    dataFrameColumns (detailed_results "bart_minimal" [sampleA]) =
      ["Model", "True Transcription", "Original Prediction", "BART Corrected",
       "WER", "CER", "BLEU", "Cosine Similarity"] ∧
    dataFrameColumns (detailed_results "bart_minimal" [sampleA]) ≠
      ["Model", "True Transcription", "Original Prediction", "Corrected Output",
       "WER", "CER", "BLEU", "Cosine Similarity"] := by
  exact ⟨rfl, by decide⟩

/-- C6 amended: the detailed per-sample CSV has exactly the column headers
[Model, True Transcription, Original Prediction, BART Corrected, WER, CER,
BLEU, Cosine Similarity], in that order, with one row per sample and no
aggregation. -/
theorem C6_detailed_table_shape :
    ∀ (model_dir : String) (samples : List ScoredSample),
      (detailed_results model_dir samples).length = samples.length ∧
      (∀ rec ∈ detailed_results model_dir samples,
        rec.map Prod.fst =
          ["Model", "True Transcription", "Original Prediction",
           "BART Corrected", "WER", "CER", "BLEU", "Cosine Similarity"]) ∧
      (samples ≠ [] →
        detailedCSVHeader (detailed_results model_dir samples) =
          "Model,True Transcription,Original Prediction,BART Corrected,WER,CER,BLEU,Cosine Similarity") := by
  intro model_dir samples
  refine ⟨List.length_map samples _, ?_, ?_⟩
  · intro rec hrec
    obtain ⟨s, _, rfl⟩ := List.mem_map.mp hrec
    rfl
  · intro hne
    cases samples with
    | nil => exact absurd rfl hne
    | cons s rest => rfl

/-- Witness for the amended C6 at the concrete one-sample table. -/
theorem C6_amended_witness :
    detailedCSVHeader (detailed_results "bart_minimal" [sampleA]) =
      "Model,True Transcription,Original Prediction,BART Corrected,WER,CER,BLEU,Cosine Similarity" :=
  (C6_detailed_table_shape "bart_minimal" [sampleA]).2.2 (by simp)

/-- C7: the Report Writer's aggregation is a pure function of the metric
records: two runs on equal record sets produce identical summary rows,
outlier items, and rendered CSV text, byte for byte. -/
theorem C7_report_aggregation_deterministic :
    ∀ rs rs' : List MetricRecord, rs = rs' →
      summaryCSV rs = summaryCSV rs' ∧
      outlierCountsCSV rs = outlierCountsCSV rs' ∧
      summary_rows rs = summary_rows rs' ∧
      outlier_items rs = outlier_items rs' := by
  intro rs rs' h
  subst h
  exact ⟨rfl, rfl, rfl, rfl⟩

/-- Witness for C7 at a concrete two-record set. -/
theorem C7_witness :
    summaryCSV [⟨.val 0, .val 0, .val 100, .val 1⟩, ⟨.nan, .val 2, .val 50, .val 0⟩] =
      summaryCSV [⟨.val 0, .val 0, .val 100, .val 1⟩, ⟨.nan, .val 2, .val 50, .val 0⟩] ∧
    outlierCountsCSV [⟨.val 0, .val 0, .val 100, .val 1⟩, ⟨.nan, .val 2, .val 50, .val 0⟩] =
      outlierCountsCSV [⟨.val 0, .val 0, .val 100, .val 1⟩, ⟨.nan, .val 2, .val 50, .val 0⟩] :=
  ⟨(C7_report_aggregation_deterministic _ _ rfl).1,
   (C7_report_aggregation_deterministic
     [⟨.val 0, .val 0, .val 100, .val 1⟩, ⟨.nan, .val 2, .val 50, .val 0⟩]
     [⟨.val 0, .val 0, .val 100, .val 1⟩, ⟨.nan, .val 2, .val 50, .val 0⟩] rfl).2.1⟩

/-- C8: when no directory entry matches the discovery predicate, the run
takes the early-exit path with the informational message, writes no output
file, and terminates with exit status 0; when at least one matches, it
proceeds to evaluate the discovered directories. -/
theorem C8_empty_discovery_clean_exit :
    ∀ entries : List DirEntry,
      (discoverModelDirs entries = [] →
        mainDispatch entries = RunOutcome.earlyExit
          "No BART model directories found matching 'bart_minimal*'. Exiting." ∧
        outputFilesOf (mainDispatch entries) = [] ∧
        exitStatusOf (mainDispatch entries) = 0) ∧
      (discoverModelDirs entries ≠ [] →
        mainDispatch entries = RunOutcome.evaluated (discoverModelDirs entries)) := by
  intro entries
  constructor
  · intro h
    refine ⟨by simp [mainDispatch, h], ?_, ?_⟩ <;>
      simp [mainDispatch, h, outputFilesOf, exitStatusOf]
  · intro h
    simp only [mainDispatch]
    rw [if_neg]
    simp [List.isEmpty_iff, h]

/-- Witness for C8: the empty directory yields the clean early exit, and a
single matching directory entry is evaluated. -/
theorem C8_witness :
    (mainDispatch [] = RunOutcome.earlyExit
      "No BART model directories found matching 'bart_minimal*'. Exiting." ∧
     outputFilesOf (mainDispatch []) = [] ∧
     exitStatusOf (mainDispatch []) = 0) ∧
    mainDispatch [⟨"bart_minimal_a", true⟩] =
      RunOutcome.evaluated ["bart_minimal_a"] :=
  ⟨(C8_empty_discovery_clean_exit []).1 rfl,
   (C8_empty_discovery_clean_exit [⟨"bart_minimal_a", true⟩]).2 (by decide)⟩

end BartEval
